import Mathlib

/-!
Shallow embedding of the research-agent core of this repository:
the search gateway (`src/utils/search.ts`) and the ReAct-style
reasoning loop (`src/utils/llm.ts`), together with theorems settling
the frozen claims about them.

External effects are modelled explicitly:
* every language-model call is an oracle function
  `String → Except Unit (Option String)` receiving the exact user
  prompt the code builds (the `Option` models a possibly null
  `choices[0]?.message?.content`; `.error` models a rejected call);
* the search provider is an oracle `Nat → FetchOutcome` giving the
  outcome of the HTTP fetch on each 1-based attempt;
* JavaScript `await x` on a promise that may reject is an explicit
  `match` on an `Except` value, and `try/catch` is `tryCatchE`.
-/

set_option maxRecDepth 20000

/-! ## JavaScript string primitives -/

/-- `charsStartWith hay needle`: does `hay` begin with `needle`? -/
def charsStartWith : List Char → List Char → Bool
  | _, [] => true
  | [], _ :: _ => false
  | a :: as, b :: bs => a == b && charsStartWith as bs

/-- `charsContain needle hay`: does `needle` occur contiguously in `hay`? -/
def charsContain (needle : List Char) : List Char → Bool
  | [] => needle.isEmpty
  | c :: t => charsStartWith (c :: t) needle || charsContain needle t

/-- JavaScript `s.includes(sub)`. -/
def jsIncludes (s sub : String) : Bool :=
  charsContain sub.data s.data

/-- JavaScript `o || d` for a possibly-absent string (`""` is falsy). -/
def jsOrStr (o : Option String) (d : String) : String :=
  match o with
  | none => d
  | some s => if s == "" then d else s

/-- JavaScript `o?.includes(sub)` used as a boolean (undefined is falsy). -/
def optIncludes (o : Option String) (sub : String) : Bool :=
  match o with
  | none => false
  | some s => jsIncludes s sub

/-- JavaScript truthiness of an optional string (`undefined` and `""` are falsy). -/
def optTruthy : Option String → Bool
  | none => false
  | some s => !(s == "")

def dropLeadingWs : List Char → List Char
  | [] => []
  | c :: t => if c.isWhitespace then dropLeadingWs t else c :: t

/-- JavaScript `s.trim()`. -/
def jsTrim (s : String) : String :=
  String.mk ((dropLeadingWs ((dropLeadingWs s.data).reverse)).reverse)

def isQuoteChar (c : Char) : Bool := c == '"' || c == '\''

/-- Line terminators that `.` does not match in a JavaScript regex. -/
def isLineTerm (c : Char) : Bool :=
  c == '\n' || c == '\r' || c == Char.ofNat 0x2028 || c == Char.ofNat 0x2029

/-- JavaScript `s.replace(/^["'](.*)["']$/, "$1")`: the regex matches iff the
string has length at least 2, starts and ends with a quote character, and the
part between them contains no line terminator; on a match the wrapping quote
characters are removed. -/
def stripWrappingQuotes (s : String) : String :=
  match s.data, s.data.reverse with
  | a :: _ :: _, b :: _ =>
    if isQuoteChar a && isQuoteChar b
        && ((s.data.drop 1).dropLast.all fun c => !isLineTerm c) then
      String.mk ((s.data.drop 1).dropLast)
    else s
  | _, _ => s

/-- The apostrophe character, used when building prompt text. -/
def apos : String := String.singleton (Char.ofNat 39)

/-! ## Data model (`src/utils/search.ts`, `src/utils/types.ts`) -/

structure SearchResult where
  title : String
  link : String
  snippet : String
  position : Nat
deriving DecidableEq

structure AgentTraceStep where
  thought : String
  action : String
  observation : String
  reflection : Option String
deriving DecidableEq

structure AgentResponse where
  traceSteps : List AgentTraceStep
  finalOutput : String
deriving DecidableEq

/-! ## Search gateway (`src/utils/search.ts`) -/

/-- `generateMockResults`: the deterministic synthetic batch produced when the
provider yields no usable results. -/
def generateMockResults (query : String) : List SearchResult :=
  [ { title := "Information about " ++ query ++ " - Resource 1"
    , link := "https://example.com/resource1"
    , snippet := "This is a comprehensive resource about " ++ query ++
        " with detailed information and analysis."
    , position := 1 }
  , { title := query ++ " - Wikipedia"
    , link := "https://en.wikipedia.org/wiki/example"
    , snippet := query ++
        " refers to a topic of interest with various aspects and considerations worth exploring."
    , position := 2 }
  , { title := "Latest research on " ++ query
    , link := "https://example.org/research"
    , snippet := "Recent studies and analyses regarding " ++ query ++
        " have shown interesting patterns and insights."
    , position := 3 }
  , { title := query ++ ": A comprehensive guide"
    , link := "https://example.net/guide"
    , snippet := "Our guide provides a thorough examination of " ++ query ++
        " from multiple perspectives."
    , position := 4 }
  , { title := "Expert opinions on " ++ query
    , link := "https://example.com/expert-analysis"
    , snippet := "Leading experts have shared their thoughts and analyses on " ++ query ++
        " and related topics."
    , position := 5 } ]

/-- Outcome of one HTTP fetch attempt against the provider.
`throws` covers a transport error and the 20-second timeout abort;
`resp ok organic` is a response with 2xx status flag `ok` and parsed
`organic` result list (a missing `organic` field is the empty list). -/
inductive FetchOutcome where
  | throws
  | resp (ok : Bool) (organic : List SearchResult)
deriving DecidableEq

/-- Environment of `performSearch`: the credential flag and the behaviour of
the provider on each 1-based attempt. -/
structure SearchEnv where
  hasSerperKey : Bool
  fetch : Nat → FetchOutcome

/-- `try body catch handler` on `Except`. -/
def tryCatchE {ε α : Type} (body : Except ε α) (handler : ε → Except ε α) : Except ε α :=
  match body with
  | .ok a => .ok a
  | .error e => handler e

/-- Control outcome of one attempt of the retry loop in `performSearch`. -/
inductive AttemptVerdict where
  | done (results : List SearchResult)
  | retryAfterWait (ms : Nat)
  | retryNow
deriving DecidableEq

/-- One iteration of the `for (let attempt = 1; attempt <= 3; attempt++)` loop
of `performSearch`: the try-block dispatches on the fetch outcome, the catch
handler covers a thrown transport error or timeout. -/
def attemptOnce (senv : SearchEnv) (cleanedQuery : String) (attempt : Nat) :
    Except Unit AttemptVerdict :=
  tryCatchE
    (match senv.fetch attempt with
     | .throws => .error ()
     | .resp ok organic =>
       if !ok then
         if attempt == 3 then .ok (.done (generateMockResults cleanedQuery))
         else .ok (.retryAfterWait (attempt * 1000))
       else if organic.isEmpty then
         if attempt == 3 then .ok (.done (generateMockResults cleanedQuery))
         else .ok .retryNow
       else .ok (.done organic))
    (fun _ =>
       if attempt == 3 then .ok (.done (generateMockResults cleanedQuery))
       else .ok (.retryAfterWait (attempt * 1500)))

/-- Result of a full `performSearch` run: the returned result list together
with an instrumented log of the backoff sleeps that were awaited, as pairs
(attempt index, wait in milliseconds). -/
structure SearchRun where
  waits : List (Nat × Nat)
  results : List SearchResult
deriving DecidableEq

/-- The retry loop of `performSearch`; `fuel` is the number of attempts left
(3 at entry), `attempt` the 1-based attempt counter.  The `fuel = 0` case is
the unreachable final `return generateMockResults(cleanedQuery)`. -/
def searchLoop (senv : SearchEnv) (cleanedQuery : String) :
    Nat → Nat → List (Nat × Nat) → Except Unit SearchRun
  | 0, _, waits => .ok { waits := waits, results := generateMockResults cleanedQuery }
  | fuel + 1, attempt, waits =>
    match attemptOnce senv cleanedQuery attempt with
    | .error e => .error e
    | .ok (.done rs) => .ok { waits := waits, results := rs }
    | .ok (.retryAfterWait ms) =>
        searchLoop senv cleanedQuery fuel (attempt + 1) (waits ++ [(attempt, ms)])
    | .ok (.retryNow) => searchLoop senv cleanedQuery fuel (attempt + 1) waits

/-- `performSearch` from `src/utils/search.ts`: missing credential returns the
synthetic batch for the raw query; otherwise the quote-stripped query is tried
up to 3 times. -/
def performSearch (senv : SearchEnv) (query : String) : Except Unit SearchRun :=
  if !senv.hasSerperKey then
    .ok { waits := [], results := generateMockResults query }
  else
    searchLoop senv (stripWrappingQuotes query) 3 1 []

/-! ## Basic lemmas about the string primitives -/

theorem strDataAppend (a b : String) : (a ++ b).data = a.data ++ b.data := rfl

theorem charsStartWith_append (l t : List Char) : charsStartWith (l ++ t) l = true := by
  induction l with
  | nil => cases t <;> rfl
  | cons a as ih => simp [charsStartWith, ih]

theorem charsContain_of_startsWith (hay needle : List Char)
    (h : charsStartWith hay needle = true) : charsContain needle hay = true := by
  cases hay with
  | nil =>
    cases needle with
    | nil => rfl
    | cons b bs => simp [charsStartWith] at h
  | cons c t => simp [charsContain, h]

theorem charsContain_middle (pre mid post : List Char) :
    charsContain mid (pre ++ (mid ++ post)) = true := by
  induction pre with
  | nil => exact charsContain_of_startsWith _ _ (charsStartWith_append mid post)
  | cons c pre ih =>
    have hstep : charsContain mid ((c :: pre) ++ (mid ++ post))
        = (charsStartWith ((c :: pre) ++ (mid ++ post)) mid
            || charsContain mid (pre ++ (mid ++ post))) := rfl
    rw [hstep, ih, Bool.or_true]

/-- A string built as `pre ++ q ++ post` JS-includes `q`. -/
theorem jsIncludes_sandwich (pre q post : String) :
    jsIncludes (pre ++ q ++ post) q = true := by
  unfold jsIncludes
  rw [strDataAppend, strDataAppend]
  rw [List.append_assoc]
  exact charsContain_middle pre.data q.data post.data

theorem jsIncludes_self_append (q post : String) :
    jsIncludes (q ++ post) q = true := by
  have h := jsIncludes_sandwich "" q post
  simpa using h

theorem jsIncludes_append_self (pre q : String) :
    jsIncludes (pre ++ q) q = true := by
  have h := jsIncludes_sandwich pre q ""
  simpa using h

theorem jsOrStr_ne_empty (o : Option String) (d : String) (hd : d ≠ "") :
    jsOrStr o d ≠ "" := by
  cases o with
  | none => simpa [jsOrStr] using hd
  | some s =>
    by_cases hs : s == ""
    · simpa [jsOrStr, hs] using hd
    · simpa [jsOrStr, hs] using (by simpa using hs : s ≠ "")

/-! ## Reasoning engine (`src/utils/llm.ts`) -/

/-- Placeholder-domain test used by `performIterativeResearch` and
`analyzeSearchResults` to recognise a synthetic fallback result. -/
def isMockLink (link : String) : Bool :=
  jsIncludes link "example.com" || jsIncludes link "example.org" ||
  jsIncludes link "example.net" || jsIncludes link "wikipedia.org/wiki/example"

/-- Environment of one `generateResearchResponse` invocation: the OpenAI
credential flag, one oracle per model-call site (each receives the exact user
prompt the code builds), and the behaviour of `performSearch` as seen from the
loop (`.error` models a rejected promise). -/
structure Env where
  hasOpenAIKey : Bool
  planModel : String → Except Unit (Option String)
  refineModel : String → Except Unit (Option String)
  analyzeModel : String → Except Unit (Option String)
  finalModel : String → Except Unit (Option String)
  search : String → Except Unit (List SearchResult)

/-- `initOpenAI`: throws when the credential is absent. -/
def initOpenAI (env : Env) : Except Unit Unit :=
  if env.hasOpenAIKey then .ok () else .error ()

/-- One `Step i+1: ...` block, shared by the refinement and synthesis prompts
(`${step.reflection || 'N/A'}`). -/
def traceStepBlock (p : Nat × AgentTraceStep) : String :=
  "Step " ++ toString (p.1 + 1) ++ ":\nThought: " ++ p.2.thought ++
  "\nAction: " ++ p.2.action ++ "\nObservation: " ++ p.2.observation ++
  "\nReflection: " ++ jsOrStr p.2.reflection "N/A"

def planningContextSection (previousContext : String) : String :=
  if previousContext == "" then "" else
    "\nPrevious conversation context:\n" ++ previousContext ++
    "\n\nThis appears to be a follow-up question. Consider the previous context when planning your research."

def planningPrompt (query : String) (searchResults : List SearchResult)
    (previousContext : String) : String :=
  "\nYou are a research agent tasked with answering: \"" ++ query ++
  "\"\n\nBelow are initial search results:\n" ++
  String.intercalate "\n" (searchResults.enum.map fun p =>
    toString (p.1 + 1) ++ ". " ++ p.2.title ++ " - " ++ p.2.link) ++
  "\n\nCreate a plan for how you" ++ apos ++
  "ll approach this research question. What are the key aspects to investigate?" ++
  planningContextSection previousContext ++ "\n"

/-- `generatePlanningStep`. -/
def generatePlanningStep (env : Env) (query : String)
    (searchResults : List SearchResult) (previousContext : String) :
    Except Unit AgentTraceStep :=
  match env.planModel (planningPrompt query searchResults previousContext) with
  | .error e => .error e
  | .ok content =>
    .ok { thought := "I need to plan how to approach this research question."
        , action := "Initial planning for query: \"" ++ query ++ "\""
        , observation := "Received initial search results and created a research plan."
        , reflection := some (jsOrStr content "No plan generated.") }

def refinementPrompt (originalQuery : String) (traceSteps : List AgentTraceStep) : String :=
  "\nOriginal query: \"" ++ originalQuery ++ "\"\n\nResearch progress so far:\n" ++
  String.intercalate "\n\n" (traceSteps.enum.map traceStepBlock) ++
  "\n\nBased on the research so far, generate a refined search query that will help gather more specific \ninformation. The new query should be more targeted and help fill gaps in the current research.\n\nIMPORTANT: Output only the plain search query text. Do not include any quotation marks, brackets,\nor other special characters around your query. Just provide the raw search terms.\n\nFor example:\nGood: Atlanta best public high schools 2023 rankings\nBad: \"Atlanta best public high schools 2023 rankings\"\n"

/-- `generateRefinedQuery`: `content?.trim() || originalQuery`, then the
wrapping-quote strip. -/
def generateRefinedQuery (env : Env) (originalQuery : String)
    (traceSteps : List AgentTraceStep) : Except Unit String :=
  match env.refineModel (refinementPrompt originalQuery traceSteps) with
  | .error e => .error e
  | .ok content => .ok (stripWrappingQuotes (jsOrStr (content.map jsTrim) originalQuery))

def mockResultsWarning (hasMockResults : Bool) : String :=
  if hasMockResults then
    "NOTE: The search returned no actual results from the web. The results below are generated placeholders. \n    You should continue searching with different terms or consider that the information may not be readily available online."
  else ""

def analysisPrompt (query : String) (searchResults : List SearchResult)
    (hasMockResults : Bool) : String :=
  "\nSearch query: \"" ++ query ++ "\"\n\n" ++ mockResultsWarning hasMockResults ++
  "\n\nSearch results:\n" ++
  String.intercalate "\n\n" (searchResults.enum.map fun p =>
    "Result " ++ toString (p.1 + 1) ++ ":\nTitle: " ++ p.2.title ++
    "\nURL: " ++ p.2.link ++ "\nSnippet: " ++ p.2.snippet) ++
  "\n\nAnalyze these search results. How relevant are they to our research question? \nWhat new information do they provide? Do we have sufficient information now, \nor should we search for something else?\n"

/-- `analyzeSearchResults` (the `traceSteps` parameter is unused, as in the
source). -/
def analyzeSearchResults (env : Env) (query : String)
    (searchResults : List SearchResult) (_traceSteps : List AgentTraceStep) :
    Except Unit AgentTraceStep :=
  match env.analyzeModel
      (analysisPrompt query searchResults (searchResults.all fun r => isMockLink r.link)) with
  | .error e => .error e
  | .ok content =>
    .ok { thought := "I need to evaluate if these search results are helpful for my research."
        , action := "Analyzing results from query: \"" ++ query ++ "\""
        , observation :=
            if searchResults.all (fun r => isMockLink r.link) then
              "Analyzed " ++ toString searchResults.length ++
                " placeholder results (no actual search results were found)."
            else
              "Analyzed " ++ toString searchResults.length ++ " search results for relevance."
        , reflection := some (jsOrStr content "No analysis generated.") }

/-- JS `arr.slice(-2)`: the at most 2 last elements. -/
def lastTwo {α : Type} (l : List α) : List α := l.drop (l.length - 2)

/-- The filter of `generateFinalOutput`:
`step.action.includes("Analyzing results") && step.reflection`. -/
def analysisKeep (step : AgentTraceStep) : Bool :=
  jsIncludes step.action "Analyzing results" && optTruthy step.reflection

/-- `essentialSteps` of `generateFinalOutput`: `traceSteps[0]` (the engine
always calls this with the planning step first, so the one-element take
matches the source's head indexing) plus the last 2 analysis steps that have
a truthy reflection. -/
def essentialSteps (traceSteps : List AgentTraceStep) : List AgentTraceStep :=
  traceSteps.take 1 ++ lastTwo (traceSteps.filter analysisKeep)

def finalContextSection (previousContext : String) : String :=
  if previousContext == "" then "" else
    "\n\nPrevious conversation context:\n" ++ previousContext ++
    "\n\nThis appears to be a follow-up question. Ensure your response builds on the previous conversation."

def finalPrompt (originalQuery : String) (essential : List AgentTraceStep)
    (previousContext : String) : String :=
  "\nOriginal research question: \"" ++ originalQuery ++ "\"\n\nKey research insights:\n" ++
  String.intercalate "\n\n" (essential.enum.map traceStepBlock) ++
  finalContextSection previousContext ++
  "\n\nBased on these research insights, generate a comprehensive answer to the original question.\nYour answer should:\n1. Include a clear introduction\n2. Present key findings with bullet points where appropriate\n3. Organize information in numbered sections when helpful\n4. Include relevant details but be concise\n5. End with a brief conclusion noting any limitations of the research\n\nRespond directly to the question without disclaimers about the research process.\n"

/-- `generateFinalOutput`: the synthesis prompt is built from
`essentialSteps traceSteps` only. -/
def generateFinalOutput (env : Env) (originalQuery : String)
    (traceSteps : List AgentTraceStep) (previousContext : String) :
    Except Unit String :=
  match env.finalModel (finalPrompt originalQuery (essentialSteps traceSteps) previousContext) with
  | .error e => .error e
  | .ok content => .ok (jsOrStr content "Unable to generate a response based on the research.")

/-! ### The iterative refine-search-analyze loop -/

/-- Loop state of `performIterativeResearch`: the trace accumulator, the
`consecutiveFailures` counter, and `rounds`, a ghost counter (not in the
source) of completed loop iterations, used only to state the round bound. -/
structure IterState where
  steps : List AgentTraceStep
  fails : Nat
  rounds : Nat
deriving DecidableEq

def mockObs : String :=
  "Search returned no real results (using generated placeholders instead)."

def failNote : String :=
  " After multiple search failures, proceeding with available information."

/-- The search step pushed at the start of each round. -/
def mkSearchStep (refinedQuery : String) : AgentTraceStep :=
  { thought := "I need to search for more specific information about this topic."
  , action := "Searching for: \"" ++ refinedQuery ++ "\""
  , observation := "Waiting for search results..."
  , reflection := none }

/-- Tail of the try-block of one round after the search resolved: run
`analyzeSearchResults`, append the analysis step, and break on the sufficiency
markers.  A thrown analysis call raises the current `consecutiveFailures`
value (`failsNow`) to the catch handler, mirroring the mutable counter the
source's catch block reads. -/
def analysisPart (env : Env) (refinedQuery : String)
    (searchResults : List SearchResult) (st : IterState)
    (searchStep : AgentTraceStep) (obs : String) (failsNow : Nat) :
    Except Nat (IterState × Bool) :=
  match analyzeSearchResults env refinedQuery searchResults
      (st.steps ++ [{ searchStep with observation := obs }]) with
  | .error _ => .error failsNow
  | .ok analysisStep =>
    .ok ({ steps := (st.steps ++ [{ searchStep with observation := obs }]) ++ [analysisStep]
         , fails := failsNow, rounds := st.rounds + 1 },
         optIncludes analysisStep.reflection "sufficient information" ||
         optIncludes analysisStep.reflection "enough information")

/-- The try-block of one round: search, classify the results as synthetic or
real, update the counter and the search step's observation, break early on
the consecutive-failure cap, otherwise analyze.  A thrown value carries the
`consecutiveFailures` value at the throw point. -/
def tryRoundBody (env : Env) (refinedQuery : String) (st : IterState)
    (searchStep : AgentTraceStep) : Except Nat (IterState × Bool) :=
  match env.search refinedQuery with
  | .error _ => .error st.fails
  | .ok searchResults =>
    if searchResults.all (fun r => isMockLink r.link) then
      if st.fails + 1 ≥ 2 then
        .ok ({ steps := st.steps ++ [{ searchStep with observation := mockObs ++ failNote }]
             , fails := st.fails + 1, rounds := st.rounds + 1 }, true)
      else
        analysisPart env refinedQuery searchResults st searchStep mockObs (st.fails + 1)
    else
      analysisPart env refinedQuery searchResults st searchStep
        ("Found " ++ toString searchResults.length ++ " results for refined query.") 0

/-- One iteration of the loop of `performIterativeResearch`; the returned
`Bool` is true when the iteration executed `break`.  The catch handler
records "Error occurred during search." and applies the failure cap. -/
def runRound (env : Env) (originalQuery : String) (st : IterState) :
    Except Unit (IterState × Bool) :=
  match generateRefinedQuery env originalQuery st.steps with
  | .error e => .error e
  | .ok refinedQuery =>
    match tryRoundBody env refinedQuery st (mkSearchStep refinedQuery) with
    | .ok r => .ok r
    | .error failsAtThrow =>
      if failsAtThrow + 1 ≥ 2 then
        .ok ({ steps := st.steps ++
                 [{ mkSearchStep refinedQuery with
                      observation := "Error occurred during search." ++ failNote }]
             , fails := failsAtThrow + 1, rounds := st.rounds + 1 }, true)
      else
        .ok ({ steps := st.steps ++
                 [{ mkSearchStep refinedQuery with
                      observation := "Error occurred during search." }]
             , fails := failsAtThrow + 1, rounds := st.rounds + 1 }, false)

/-- The `for (let i = 0; i < maxIterations; i++)` loop. -/
def runIter (env : Env) (originalQuery : String) : Nat → IterState → Except Unit IterState
  | 0, st => .ok st
  | n + 1, st =>
    match runRound env originalQuery st with
    | .error e => .error e
    | .ok (st', brk) => if brk then .ok st' else runIter env originalQuery n st'

/-- `performIterativeResearch` (the `plan` parameter is unused, as in the
source); the counter starts at 0 — the initial search results never
contribute to it. -/
def performIterativeResearch (env : Env) (originalQuery : String) (_plan : String)
    (traceSteps : List AgentTraceStep) (maxIterations : Nat) : Except Unit IterState :=
  runIter env originalQuery maxIterations { steps := traceSteps, fails := 0, rounds := 0 }

/-- `generateResearchResponse` — the `runResearch` operation of the spec. -/
def generateResearchResponse (env : Env) (query : String)
    (initialSearchResults : List SearchResult) (previousContext : String) :
    Except Unit AgentResponse :=
  match initOpenAI env with
  | .error e => .error e
  | .ok _ =>
    match generatePlanningStep env query initialSearchResults previousContext with
    | .error e => .error e
    | .ok planningStep =>
      match performIterativeResearch env query (jsOrStr planningStep.reflection "")
          [planningStep] 2 with
      | .error e => .error e
      | .ok finalState =>
        match generateFinalOutput env query finalState.steps previousContext with
        | .error e => .error e
        | .ok finalOutput => .ok { traceSteps := finalState.steps, finalOutput := finalOutput }

/-! ## Structural lemmas about the loop -/

theorem analysisPart_shape {env : Env} {rq : String} {rs : List SearchResult}
    {st : IterState} {step : AgentTraceStep} {obs : String} {failsNow : Nat}
    {st' : IterState} {brk : Bool}
    (h : analysisPart env rq rs st step obs failsNow = .ok (st', brk)) :
    ∃ tail, st'.steps = st.steps ++ tail ∧ tail.length ≤ 2 ∧
      st'.rounds = st.rounds + 1 ∧ st'.fails = failsNow := by
  unfold analysisPart at h
  cases ha : analyzeSearchResults env rq rs (st.steps ++ [{ step with observation := obs }]) with
  | error e => rw [ha] at h; cases h
  | ok astep =>
    rw [ha] at h
    simp only [Except.ok.injEq, Prod.mk.injEq] at h
    obtain ⟨hst, _⟩ := h
    subst hst
    exact ⟨[{ step with observation := obs }, astep], by simp, by simp, rfl, rfl⟩

theorem tryRoundBody_shape {env : Env} {rq : String} {st : IterState}
    {step : AgentTraceStep} {st' : IterState} {brk : Bool}
    (h : tryRoundBody env rq st step = .ok (st', brk)) :
    ∃ tail, st'.steps = st.steps ++ tail ∧ tail.length ≤ 2 ∧
      st'.rounds = st.rounds + 1 := by
  unfold tryRoundBody at h
  split at h
  · simp at h
  · split at h
    · split at h
      · simp only [Except.ok.injEq, Prod.mk.injEq] at h
        obtain ⟨hst, _⟩ := h
        subst hst
        exact ⟨[{ step with observation := mockObs ++ failNote }], rfl, by simp, rfl⟩
      · obtain ⟨tail, h1, h2, h3, _⟩ := analysisPart_shape h
        exact ⟨tail, h1, h2, h3⟩
    · obtain ⟨tail, h1, h2, h3, _⟩ := analysisPart_shape h
      exact ⟨tail, h1, h2, h3⟩

theorem runRound_shape {env : Env} {q : String} {st st' : IterState} {brk : Bool}
    (h : runRound env q st = .ok (st', brk)) :
    ∃ tail, st'.steps = st.steps ++ tail ∧ tail.length ≤ 2 ∧
      st'.rounds = st.rounds + 1 := by
  unfold runRound at h
  split at h
  · simp at h
  · rename_i rq hq
    split at h
    · rename_i r hb
      simp only [Except.ok.injEq] at h
      subst h
      exact tryRoundBody_shape hb
    · rename_i failsAtThrow hb
      split at h <;>
        (simp only [Except.ok.injEq, Prod.mk.injEq] at h
         obtain ⟨hst, _⟩ := h
         subst hst
         exact ⟨_, rfl, by simp, rfl⟩)

theorem runIter_shape {env : Env} {q : String} :
    ∀ (n : Nat) (st st' : IterState), runIter env q n st = .ok st' →
      ∃ tail, st'.steps = st.steps ++ tail ∧ tail.length ≤ 2 * n ∧
        st'.rounds ≤ st.rounds + n := by
  intro n
  induction n with
  | zero =>
    intro st st' h
    unfold runIter at h
    simp only [Except.ok.injEq] at h
    subst h
    exact ⟨[], by simp, by simp, by simp⟩
  | succ n ih =>
    intro st st' h
    unfold runIter at h
    split at h
    · simp at h
    · rename_i r st1 brk heq
      obtain ⟨tail1, hs1, hl1, hr1⟩ := runRound_shape heq
      split at h
      · simp only [Except.ok.injEq] at h
        subst h
        exact ⟨tail1, hs1, by omega, by omega⟩
      · obtain ⟨tail2, hs2, hl2, hr2⟩ := ih st1 st' h
        refine ⟨tail1 ++ tail2, ?_, ?_, ?_⟩
        · rw [hs2, hs1, List.append_assoc]
        · simp only [List.length_append]; omega
        · omega

/-! ## Concrete environments used by witnesses and counterexamples -/

/-- A real (non-placeholder-domain) search result. -/
def realResult : SearchResult :=
  { title := "Quarterly EV market report"
  , link := "https://www.nytimes.com/2024/01/tech-report"
  , snippet := "A detailed report."
  , position := 1 }

/-- A fully healthy environment: every model call answers, the search returns
one real result, and the analysis reports sufficiency. -/
def envW : Env :=
  { hasOpenAIKey := true
  , planModel := fun _ => .ok (some "Plan the work.")
  , refineModel := fun _ => .ok (some "refined query w")
  , analyzeModel := fun _ => .ok (some "We have sufficient information.")
  , finalModel := fun _ => .ok (some "The final answer.")
  , search := fun _ => .ok [realResult] }

/-- Environment whose search succeeds with a real result but whose
result-analysis model call always rejects. -/
def env3 : Env :=
  { hasOpenAIKey := true
  , planModel := fun _ => .ok (some "A plan.")
  , refineModel := fun _ => .ok (some "solar panel efficiency 2024")
  , analyzeModel := fun _ => .error ()
  , finalModel := fun _ => .ok (some "An answer.")
  , search := fun _ => .ok [realResult] }

/-- Search-gateway environment in which the provider is unreachable: every
fetch attempt throws. -/
def envDown : SearchEnv :=
  { hasSerperKey := true, fetch := fun _ => .throws }

/-- Environment for the unreachable-provider scenario: model calls answer,
and every loop search goes through `performSearch` against the unreachable
provider, hence yields the synthetic batch. -/
def env4 : Env :=
  { hasOpenAIKey := true
  , planModel := fun _ => .ok (some "Plan: look for EV reviews.")
  , refineModel := fun _ => .ok (some "best electric cars 2024 reviews")
  , analyzeModel := fun _ => .ok (some "The placeholder results are not informative.")
  , finalModel := fun _ => .ok (some "Based on limited information, here is an answer.")
  , search := fun q =>
      match performSearch envDown q with
      | .error e => .error e
      | .ok run => .ok run.results }

/-- Search-gateway environment whose first attempt gets a non-2xx response
and whose later attempts throw. -/
def env8 : SearchEnv :=
  { hasSerperKey := true
  , fetch := fun a => if a == 1 then .resp false [] else .throws }

/-- Healthy environment except that the planning model call rejects. -/
def envPlanFail : Env :=
  { envW with planModel := fun _ => .error () }

/-! ## Claim C1 -/

/-- **C1**: every invocation of `runResearch` (`generateResearchResponse`)
that returns normally yields a response whose trace has length at least 1,
whose first element is the planning step for the query, and whose
`finalOutput` is non-empty. -/
theorem c1_runResearch_trace_and_output (env : Env) (query : String)
    (res : List SearchResult) (ctx : String) (resp : AgentResponse)
    (h : generateResearchResponse env query res ctx = .ok resp) :
    1 ≤ resp.traceSteps.length ∧
    (∃ plan, resp.traceSteps.head? = some
      { thought := "I need to plan how to approach this research question."
      , action := "Initial planning for query: \"" ++ query ++ "\""
      , observation := "Received initial search results and created a research plan."
      , reflection := some plan }) ∧
    resp.finalOutput ≠ "" := by
  unfold generateResearchResponse at h
  split at h
  · simp at h
  · split at h
    · simp at h
    · rename_i planningStep hplan
      split at h
      · simp at h
      · rename_i finalState hloop
        split at h
        · simp at h
        · rename_i finalOutput hfin
          simp only [Except.ok.injEq] at h
          subst h
          unfold performIterativeResearch at hloop
          obtain ⟨tail, hsteps, -, -⟩ := runIter_shape 2 _ _ hloop
          unfold generatePlanningStep at hplan
          split at hplan
          · simp at hplan
          · rename_i content hcontent
            simp only [Except.ok.injEq] at hplan
            unfold generateFinalOutput at hfin
            split at hfin
            · simp at hfin
            · rename_i content2 hcontent2
              simp only [Except.ok.injEq] at hfin
              refine ⟨?_, ?_, ?_⟩
              · simp [hsteps]
              · refine ⟨jsOrStr content "No plan generated.", ?_⟩
                simp only [hsteps, ← hplan]
                rfl
              · simp only [← hfin]
                exact jsOrStr_ne_empty _ _ (by decide)

/-- The response computed by the healthy environment `envW`. -/
def respW : AgentResponse :=
  { traceSteps :=
      [ { thought := "I need to plan how to approach this research question."
        , action := "Initial planning for query: \"q\""
        , observation := "Received initial search results and created a research plan."
        , reflection := some "Plan the work." }
      , { thought := "I need to search for more specific information about this topic."
        , action := "Searching for: \"refined query w\""
        , observation := "Found 1 results for refined query."
        , reflection := none }
      , { thought := "I need to evaluate if these search results are helpful for my research."
        , action := "Analyzing results from query: \"refined query w\""
        , observation := "Analyzed 1 search results for relevance."
        , reflection := some "We have sufficient information." } ]
  , finalOutput := "The final answer." }

theorem c1_witness :
    1 ≤ respW.traceSteps.length ∧
    (∃ plan, respW.traceSteps.head? = some
      { thought := "I need to plan how to approach this research question."
      , action := "Initial planning for query: \"" ++ "q" ++ "\""
      , observation := "Received initial search results and created a research plan."
      , reflection := some plan }) ∧
    respW.finalOutput ≠ "" :=
  c1_runResearch_trace_and_output envW "q" [] "" respW (by rfl)

/-! ## Claim C2 -/

/-- **C2**: the iterative refine-search-analyze phase, as invoked by
`generateResearchResponse` with a cap of 2, executes at most 2 rounds, no
matter what text any model call returns. -/
theorem c2_round_cap (env : Env) (q plan : String)
    (steps0 : List AgentTraceStep) (st' : IterState)
    (h : performIterativeResearch env q plan steps0 2 = .ok st') :
    st'.rounds ≤ 2 := by
  unfold performIterativeResearch at h
  obtain ⟨-, -, -, hr⟩ := runIter_shape 2 _ _ h
  simpa using hr

/-- The loop state computed by `envW` from an empty trace. -/
def loopStateW : IterState :=
  { steps :=
      [ { thought := "I need to search for more specific information about this topic."
        , action := "Searching for: \"refined query w\""
        , observation := "Found 1 results for refined query."
        , reflection := none }
      , { thought := "I need to evaluate if these search results are helpful for my research."
        , action := "Analyzing results from query: \"refined query w\""
        , observation := "Analyzed 1 search results for relevance."
        , reflection := some "We have sufficient information." } ]
  , fails := 0
  , rounds := 1 }

theorem c2_witness : loopStateW.rounds ≤ 2 :=
  c2_round_cap envW "q" "plan" [] loopStateW (by rfl)

/-! ## Claim C10 -/

/-- **C10**: a normally-returning invocation produces at most 5 trace steps
(1 planning step, plus per round one search step and at most one analysis
step, over at most 2 rounds). -/
theorem c10_trace_length_bound (env : Env) (query : String)
    (res : List SearchResult) (ctx : String) (resp : AgentResponse)
    (h : generateResearchResponse env query res ctx = .ok resp) :
    resp.traceSteps.length ≤ 5 := by
  unfold generateResearchResponse at h
  split at h
  · simp at h
  · split at h
    · simp at h
    · rename_i planningStep hplan
      split at h
      · simp at h
      · rename_i finalState hloop
        split at h
        · simp at h
        · rename_i finalOutput hfin
          simp only [Except.ok.injEq] at h
          subst h
          unfold performIterativeResearch at hloop
          obtain ⟨tail, hsteps, hlen, -⟩ := runIter_shape 2 _ _ hloop
          simp only [hsteps, List.length_append, List.length_cons, List.length_nil]
          omega

theorem c10_witness : respW.traceSteps.length ≤ 5 :=
  c10_trace_length_bound envW "q" [] "" respW (by rfl)

/-! ## Claim C7 -/

theorem attemptOnce_isOk (senv : SearchEnv) (cq : String) (a : Nat) :
    ∃ v, attemptOnce senv cq a = .ok v := by
  unfold attemptOnce tryCatchE
  cases hf : senv.fetch a with
  | throws =>
    by_cases h3 : (a == 3) = true <;> simp [h3]
  | resp ok organic =>
    by_cases hok : (!ok) = true
    · by_cases h3 : (a == 3) = true <;> simp [hok, h3]
    · by_cases he : organic.isEmpty = true
      · by_cases h3 : (a == 3) = true <;> simp [hok, he, h3]
      · simp [hok, he]

theorem searchLoop_isOk (senv : SearchEnv) (cq : String) :
    ∀ (fuel attempt : Nat) (waits : List (Nat × Nat)),
      ∃ run, searchLoop senv cq fuel attempt waits = .ok run := by
  intro fuel
  induction fuel with
  | zero => intro a w; exact ⟨_, rfl⟩
  | succ n ih =>
    intro a w
    obtain ⟨v, hv⟩ := attemptOnce_isOk senv cq a
    unfold searchLoop
    rw [hv]
    cases v with
    | done rs => exact ⟨_, rfl⟩
    | retryAfterWait ms => exact ih _ _
    | retryNow => exact ih _ _

/-- **C7**: for every query and every provider behaviour (non-2xx response,
thrown transport error or timeout, empty result set, missing API key),
`performSearch` returns an ordered list of results and never raises. -/
theorem c7_performSearch_never_fails (senv : SearchEnv) (q : String) :
    ∃ run, performSearch senv q = .ok run := by
  unfold performSearch
  cases hk : senv.hasSerperKey
  · simp [hk]
  · simp only [hk, Bool.not_true, Bool.false_eq_true, if_false]
    exact searchLoop_isOk senv (stripWrappingQuotes q) 3 1 []

/-! ## Claim C8 -/

/-- Per-failure-kind wait policy actually implemented by `performSearch`:
a thrown attempt `a` is followed by a wait of `a * 1500` ms, a non-2xx
response by `a * 1000` ms, and a 2xx response (even with an empty result
set) is never followed by a recorded wait. -/
def waitMatches (senv : SearchEnv) (p : Nat × Nat) : Prop :=
  match senv.fetch p.1 with
  | .throws => p.2 = p.1 * 1500
  | .resp ok _ => ok = false ∧ p.2 = p.1 * 1000

theorem attemptOnce_retryWait {senv : SearchEnv} {cq : String} {a ms : Nat}
    (h : attemptOnce senv cq a = .ok (.retryAfterWait ms)) :
    a ≠ 3 ∧ waitMatches senv (a, ms) := by
  unfold attemptOnce tryCatchE at h
  cases hf : senv.fetch a <;> rw [hf] at h
  case throws =>
    by_cases h3 : (a == 3) = true
    · simp [h3] at h
    · simp only [h3, Bool.false_eq_true, if_false] at h
      simp only [Except.ok.injEq, AttemptVerdict.retryAfterWait.injEq] at h
      subst h
      exact ⟨by simpa using h3, by simp [waitMatches, hf]⟩
  case resp ok organic =>
    by_cases hok : (!ok) = true
    · by_cases h3 : (a == 3) = true
      · simp [hok, h3] at h
      · simp only [hok, if_true, h3, Bool.false_eq_true, if_false] at h
        simp only [Except.ok.injEq, AttemptVerdict.retryAfterWait.injEq] at h
        subst h
        refine ⟨by simpa using h3, ?_⟩
        simp only [waitMatches, hf]
        exact ⟨by simpa using hok, by simp⟩
    · by_cases he : organic.isEmpty = true
      · by_cases h3 : (a == 3) = true <;> simp [hok, he, h3] at h
      · simp [hok, he] at h

/-- Invariant of the retry loop used to characterise the waits of a run. -/
theorem searchLoop_waits (senv : SearchEnv) (cq : String) :
    ∀ (fuel attempt : Nat) (waits : List (Nat × Nat)) (run : SearchRun),
      attempt + fuel = 4 →
      searchLoop senv cq fuel attempt waits = .ok run →
      run.waits.length ≤ waits.length + (fuel - 1) ∧
      ∀ p ∈ run.waits, p ∈ waits ∨
        (attempt ≤ p.1 ∧ p.1 ≤ 2 ∧ waitMatches senv p) := by
  intro fuel
  induction fuel with
  | zero =>
    intro a w run hfa h
    unfold searchLoop at h
    simp only [Except.ok.injEq] at h
    subst h
    exact ⟨by simp, fun p hp => Or.inl hp⟩
  | succ n ih =>
    intro a w run hfa h
    unfold searchLoop at h
    cases hv : attemptOnce senv cq a <;> rw [hv] at h
    case error => simp at h
    case ok v =>
      cases v with
      | done rs =>
        simp only [Except.ok.injEq] at h
        subst h
        exact ⟨by show w.length ≤ w.length + (n + 1 - 1); omega, fun p hp => Or.inl hp⟩
      | retryAfterWait ms =>
        obtain ⟨ha3, hw⟩ := attemptOnce_retryWait hv
        obtain ⟨hlen, hmem⟩ := ih (a + 1) (w ++ [(a, ms)]) run (by omega) h
        have ha2 : a ≤ 2 := by omega
        refine ⟨by simp at hlen; omega, fun p hp => ?_⟩
        rcases hmem p hp with hin | ⟨hge, h2, hm⟩
        · rcases List.mem_append.mp hin with hl | hr
          · exact Or.inl hl
          · simp only [List.mem_singleton] at hr
            subst hr
            exact Or.inr ⟨Nat.le_refl a, ha2, hw⟩
        · exact Or.inr ⟨by omega, h2, hm⟩
      | retryNow =>
        obtain ⟨hlen, hmem⟩ := ih (a + 1) w run (by omega) h
        refine ⟨by omega, fun p hp => ?_⟩
        rcases hmem p hp with hin | ⟨hge, h2, hm⟩
        · exact Or.inl hin
        · exact Or.inr ⟨by omega, h2, hm⟩

/-- **C8 counterexample**: with a key present, a non-2xx first attempt and a
thrown second attempt, the recorded waits are 1000 ms then 3000 ms — not
`1 × u` and `2 × u` for any one fixed unit `u`, so the delay policy is not
the same for every failure kind. -/
theorem c8_counterexample :
    performSearch env8 "q" = .ok { waits := [(1, 1000), (2, 3000)]
                                 , results := generateMockResults "q" } ∧
    ¬ ∃ u : Nat, [1000, 3000] = [1 * u, 2 * u] := by
  refine ⟨by rfl, ?_⟩
  rintro ⟨u, hu⟩
  simp only [List.cons.injEq] at hu
  omega

/-- **C8 amended**: `performSearch` makes at most 3 attempts (hence at most 2
recorded waits), and each wait is determined by the failing attempt's kind:
`attempt × 1500` ms after a thrown transport error or timeout,
`attempt × 1000` ms after a non-2xx response, and no wait at all after an
empty 2xx result set. -/
theorem c8_amended_backoff (senv : SearchEnv) (q : String)
    (hk : senv.hasSerperKey = true) (run : SearchRun)
    (h : performSearch senv q = .ok run) :
    run.waits.length ≤ 2 ∧
    ∀ p ∈ run.waits, (1 ≤ p.1 ∧ p.1 ≤ 2) ∧ waitMatches senv p := by
  unfold performSearch at h
  rw [hk] at h
  simp only [Bool.not_true, Bool.false_eq_true, if_false] at h
  obtain ⟨hlen, hmem⟩ := searchLoop_waits senv (stripWrappingQuotes q) 3 1 [] run (by omega) h
  refine ⟨by simpa using hlen, fun p hp => ?_⟩
  rcases hmem p hp with hin | ⟨hge, h2, hm⟩
  · simp at hin
  · exact ⟨⟨hge, h2⟩, hm⟩

theorem c8_witness :
    (SearchRun.mk [(1, 1000), (2, 3000)] (generateMockResults "q")).waits.length ≤ 2 :=
  (c8_amended_backoff env8 "q" rfl _ (by rfl)).1

/-! ## Claim C9 -/

/-- An attempt that yields no usable result set: a thrown call, a non-2xx
response, or an empty 2xx result set. -/
def attemptFails : FetchOutcome → Bool
  | .throws => true
  | .resp ok organic => !ok || organic.isEmpty

theorem attemptOnce_fail_three (senv : SearchEnv) (cq : String)
    (hf : attemptFails (senv.fetch 3) = true) :
    attemptOnce senv cq 3 = .ok (.done (generateMockResults cq)) := by
  unfold attemptOnce tryCatchE
  cases h : senv.fetch 3 with
  | throws => simp
  | resp ok organic =>
    rw [h] at hf
    by_cases hok : (!ok) = true
    · simp [hok]
    · have he : organic.isEmpty = true := by
        simpa [attemptFails, hok] using hf
      simp [hok, he]

theorem attemptOnce_fail_notdone (senv : SearchEnv) (cq : String) (a : Nat)
    (h3 : (a == 3) = false) (hf : attemptFails (senv.fetch a) = true) :
    (∃ ms, attemptOnce senv cq a = .ok (.retryAfterWait ms)) ∨
    attemptOnce senv cq a = .ok .retryNow := by
  unfold attemptOnce tryCatchE
  cases h : senv.fetch a with
  | throws => exact Or.inl ⟨a * 1500, by simp [h3]⟩
  | resp ok organic =>
    rw [h] at hf
    by_cases hok : (!ok) = true
    · exact Or.inl ⟨a * 1000, by simp [hok, h3]⟩
    · have he : organic.isEmpty = true := by
        simpa [attemptFails, hok] using hf
      exact Or.inr (by simp [hok, he, h3])

theorem searchLoop_allfail (senv : SearchEnv) (cq : String)
    (hf1 : attemptFails (senv.fetch 1) = true)
    (hf2 : attemptFails (senv.fetch 2) = true)
    (hf3 : attemptFails (senv.fetch 3) = true) :
    ∃ w, searchLoop senv cq 3 1 [] =
      .ok { waits := w, results := generateMockResults cq } := by
  have h3 := attemptOnce_fail_three senv cq hf3
  rcases attemptOnce_fail_notdone senv cq 1 (by decide) hf1 with ⟨ms1, h1⟩ | h1 <;>
    rcases attemptOnce_fail_notdone senv cq 2 (by decide) hf2 with ⟨ms2, h2⟩ | h2
  all_goals first
    | exact ⟨[(1, ms1), (2, ms2)], by simp [searchLoop, h1, h2, h3]⟩
    | exact ⟨[(1, ms1)], by simp [searchLoop, h1, h2, h3]⟩
    | exact ⟨[(2, ms2)], by simp [searchLoop, h1, h2, h3]⟩
    | exact ⟨[], by simp [searchLoop, h1, h2, h3]⟩

/-- **C9 counterexample**: with the provider failing on all 3 attempts and
the query `"ev"` written with literal wrapping quote characters, the
synthetic batch is templated from the quote-stripped text `ev`, so not every
title contains the original query text. -/
theorem c9_counterexample :
    performSearch envDown "\"ev\"" =
      .ok { waits := [(1, 1500), (2, 3000)], results := generateMockResults "ev" } ∧
    ((generateMockResults "ev").all fun r => jsIncludes r.title "\"ev\"") = false :=
  ⟨by rfl, by rfl⟩

/-- **C9 amended**: if the provider yields no usable result set on all 3
attempts, `performSearch` returns exactly the 5-entry synthetic batch for
the *quote-stripped* query: its links are pairwise distinct placeholder
links, and every title contains the quote-stripped query text. -/
theorem c9_amended_mock_batch (senv : SearchEnv) (q : String)
    (hk : senv.hasSerperKey = true)
    (hf1 : attemptFails (senv.fetch 1) = true)
    (hf2 : attemptFails (senv.fetch 2) = true)
    (hf3 : attemptFails (senv.fetch 3) = true) :
    (∃ w, performSearch senv q =
        .ok { waits := w, results := generateMockResults (stripWrappingQuotes q) }) ∧
    (generateMockResults (stripWrappingQuotes q)).length = 5 ∧
    ((generateMockResults (stripWrappingQuotes q)).map fun r => r.link).Nodup ∧
    ((generateMockResults (stripWrappingQuotes q)).all fun r => isMockLink r.link) = true ∧
    ∀ r ∈ generateMockResults (stripWrappingQuotes q),
      jsIncludes r.title (stripWrappingQuotes q) = true := by
  refine ⟨?_, rfl, ?_, ?_, ?_⟩
  · obtain ⟨w, hw⟩ := searchLoop_allfail senv (stripWrappingQuotes q) hf1 hf2 hf3
    refine ⟨w, ?_⟩
    unfold performSearch
    rw [hk]
    simpa using hw
  · simp only [generateMockResults, List.map_cons, List.map_nil]
    decide
  · simp only [generateMockResults, List.all_cons, List.all_nil]
    decide
  · intro r hr
    simp only [generateMockResults, List.mem_cons, List.not_mem_nil, or_false] at hr
    rcases hr with h | h | h | h | h <;> subst h
    · exact jsIncludes_sandwich "Information about " _ " - Resource 1"
    · exact jsIncludes_self_append _ " - Wikipedia"
    · exact jsIncludes_append_self "Latest research on " _
    · exact jsIncludes_self_append _ ": A comprehensive guide"
    · exact jsIncludes_append_self "Expert opinions on " _

theorem c9_witness :
    (generateMockResults (stripWrappingQuotes "\"ev\"")).length = 5 :=
  (c9_amended_mock_batch envDown "\"ev\"" rfl rfl rfl rfl).2.1

/-! ## Claim C3 -/

/-- The loop state after one round of `env3` starting from an empty trace. -/
def st13 : IterState :=
  { steps := [ { thought := "I need to search for more specific information about this topic."
               , action := "Searching for: \"solar panel efficiency 2024\""
               , observation := "Error occurred during search."
               , reflection := none } ]
  , fails := 1
  , rounds := 1 }

/-- **C3 counterexample**: a round whose search call succeeds with a real
(non-placeholder) result still counts as a failure when the result-analysis
model call rejects — the consecutive-failure count rises from 0 to 1 even
though the search neither raised nor returned only placeholder results, so
"failure exactly when synthetic-only results or search error" is false. -/
theorem c3_counterexample :
    runRound env3 "q" { steps := [], fails := 0, rounds := 0 } = .ok (st13, false) ∧
    st13.fails = 1 ∧
    env3.search "solar panel efficiency 2024" = .ok [realResult] ∧
    (([realResult]).all fun r => isMockLink r.link) = false :=
  ⟨by rfl, rfl, rfl, by rfl⟩

/-- Corrected set of causes that make a round count as a failure: the search
yielded only placeholder-domain results, the search call raised, or the
result-analysis model call raised. -/
def roundFailureCause (env : Env) (rq : String) : Prop :=
  env.search rq = .error () ∨
  ∃ rs, env.search rq = .ok rs ∧
    ((rs.all fun r => isMockLink r.link) = true ∨
     env.analyzeModel (analysisPrompt rq rs (rs.all fun r => isMockLink r.link)) = .error ())

/-- **C3 amended**: after a round, the consecutive-failure count is positive
iff the round's search yielded only placeholder results, the search call
raised, or the analysis call raised; and whenever the count has reached 2,
the round broke out of the loop (so no further round starts) and the round's
search step observation ends with the proceed-with-available-information
note. -/
theorem c3_amended_failure_accounting (env : Env) (q : String) (st : IterState)
    (rq : String) (st' : IterState) (brk : Bool)
    (hrq : generateRefinedQuery env q st.steps = .ok rq)
    (h : runRound env q st = .ok (st', brk)) :
    (st'.fails ≠ 0 ↔ roundFailureCause env rq) ∧
    (2 ≤ st'.fails →
      brk = true ∧
      (∃ s, st'.steps = st.steps ++ [s] ∧ ∃ pre, s.observation = pre ++ failNote) ∧
      ∀ n, runIter env q (n + 1) st = .ok st') := by
  have horig := h
  unfold runRound at h
  split at h
  · simp at h
  · rename_i rq' hq'
    rw [hrq] at hq'
    simp only [Except.ok.injEq] at hq'
    subst hq'
    split at h
    · -- the try-block completed without throwing
      rename_i r hb
      simp only [Except.ok.injEq] at h
      subst h
      unfold tryRoundBody at hb
      split at hb
      · simp at hb
      · rename_i rs hs
        split at hb
        · rename_i hmock
          split at hb
          · -- synthetic-only results hit the failure cap: break before analysis
            rename_i hcap
            simp only [Except.ok.injEq, Prod.mk.injEq] at hb
            obtain ⟨hst, hbrk⟩ := hb
            rw [← hst, ← hbrk] at horig ⊢
            refine ⟨⟨fun _ => Or.inr ⟨rs, hs, Or.inl hmock⟩, fun _ => by simp⟩, fun _ => ?_⟩
            refine ⟨rfl, ⟨_, rfl, ⟨mockObs, rfl⟩⟩, fun n => ?_⟩
            simp [runIter, horig]
          · -- synthetic-only results below the cap: analysis runs
            rename_i hcap
            unfold analysisPart at hb
            split at hb
            · simp at hb
            · rename_i astep hastep
              simp only [Except.ok.injEq, Prod.mk.injEq] at hb
              obtain ⟨hst, hbrk⟩ := hb
              rw [← hst]
              refine ⟨⟨fun _ => Or.inr ⟨rs, hs, Or.inl hmock⟩, fun _ => by simp⟩, fun h2 => ?_⟩
              simp only [] at h2
              omega
        · -- real results: the counter is reset, then analysis runs
          rename_i hmock
          unfold analysisPart at hb
          split at hb
          · simp at hb
          · rename_i astep hastep
            simp only [Except.ok.injEq, Prod.mk.injEq] at hb
            obtain ⟨hst, hbrk⟩ := hb
            rw [← hst]
            unfold analyzeSearchResults at hastep
            split at hastep
            · simp at hastep
            · rename_i content hcontent
              refine ⟨⟨fun h0 => absurd rfl h0, fun hc => ?_⟩, fun h2 => ?_⟩
              · rcases hc with hserr | ⟨rs', hok, hmock' | haerr⟩
                · rw [hs] at hserr; cases hserr
                · rw [hs] at hok
                  simp only [Except.ok.injEq] at hok
                  subst hok
                  exact absurd hmock' (by simpa using hmock)
                · rw [hs] at hok
                  simp only [Except.ok.injEq] at hok
                  subst hok
                  rw [hcontent] at haerr
                  cases haerr
              · simp only [] at h2
                omega
    · -- the try-block threw: the catch handler runs
      rename_i failsAtThrow hb
      unfold tryRoundBody at hb
      split at hb
      · -- the search call itself rejected
        rename_i hs
        simp only [Except.error.injEq] at hb
        subst hb
        split at h
        · rename_i hcap
          simp only [Except.ok.injEq, Prod.mk.injEq] at h
          obtain ⟨hst, hbrk⟩ := h
          rw [← hst, ← hbrk] at horig ⊢
          refine ⟨⟨fun _ => Or.inl hs, fun _ => by simp⟩, fun _ => ?_⟩
          refine ⟨rfl, ⟨_, rfl, ⟨"Error occurred during search.", rfl⟩⟩, fun n => ?_⟩
          simp [runIter, horig]
        · rename_i hcap
          simp only [Except.ok.injEq, Prod.mk.injEq] at h
          obtain ⟨hst, hbrk⟩ := h
          rw [← hst]
          refine ⟨⟨fun _ => Or.inl hs, fun _ => by simp⟩, fun h2 => ?_⟩
          simp only [] at h2
          omega
      · -- the search resolved; the analysis model call rejected
        rename_i rs hs
        split at hb
        · rename_i hmock
          split at hb
          · simp at hb
          · rename_i hcap
            unfold analysisPart at hb
            split at hb
            · rename_i haerr
              simp only [Except.error.injEq] at hb
              subst hb
              split at h
              · rename_i hcap2
                simp only [Except.ok.injEq, Prod.mk.injEq] at h
                obtain ⟨hst, hbrk⟩ := h
                rw [← hst, ← hbrk] at horig ⊢
                refine ⟨⟨fun _ => Or.inr ⟨rs, hs, Or.inl hmock⟩, fun _ => by simp⟩, fun _ => ?_⟩
                refine ⟨rfl, ⟨_, rfl, ⟨"Error occurred during search.", rfl⟩⟩, fun n => ?_⟩
                simp [runIter, horig]
              · rename_i hcap2
                omega
            · simp at hb
        · rename_i hmock
          unfold analysisPart at hb
          split at hb
          · rename_i haerr
            simp only [Except.error.injEq] at hb
            subst hb
            unfold analyzeSearchResults at haerr
            split at haerr
            · rename_i e hcontent
              split at h
              · rename_i hcap2
                omega
              · rename_i hcap2
                simp only [Except.ok.injEq, Prod.mk.injEq] at h
                obtain ⟨hst, hbrk⟩ := h
                rw [← hst]
                refine ⟨⟨fun _ => Or.inr ⟨rs, hs, Or.inr ?_⟩, fun _ => by simp⟩, fun h2 => ?_⟩
                · cases e
                  exact hcontent
                · simp only [] at h2
                  omega
            · simp at haerr
          · simp at hb

/-! ## Claim C5 -/

/-- The response computed by `env3` (whose analysis model call always
rejects): the invocation still returns normally, with the caught rejection
recorded as "Error occurred during search." in both rounds. -/
def resp5 : AgentResponse :=
  { traceSteps :=
      [ { thought := "I need to plan how to approach this research question."
        , action := "Initial planning for query: \"q\""
        , observation := "Received initial search results and created a research plan."
        , reflection := some "A plan." }
      , { thought := "I need to search for more specific information about this topic."
        , action := "Searching for: \"solar panel efficiency 2024\""
        , observation := "Error occurred during search."
        , reflection := none }
      , { thought := "I need to search for more specific information about this topic."
        , action := "Searching for: \"solar panel efficiency 2024\""
        , observation := "Error occurred during search."
        , reflection := none } ]
  , finalOutput := "An answer." }

/-- **C5 counterexample**: in `env3` every result-analysis model call
rejects, yet `generateResearchResponse` returns normally — the failure is
caught by the per-round catch block instead of propagating to the caller. -/
theorem c5_counterexample :
    env3.analyzeModel "" = .error () ∧
    generateResearchResponse env3 "q" [] "" = .ok resp5 :=
  ⟨rfl, by rfl⟩

/-- **C5 amended**: failures of the planning, query-refinement and synthesis
model calls propagate and abort (conjuncts 1-3); a search-call failure never
aborts the round (conjunct 4); and a failure of the result-analysis model
call is caught by the per-round handler and never aborts either
(conjunct 5). -/
theorem c5_amended_model_failure_policy :
    (∀ (env : Env) (q : String) (res : List SearchResult) (ctx : String),
      env.hasOpenAIKey = true →
      env.planModel (planningPrompt q res ctx) = .error () →
      generateResearchResponse env q res ctx = .error ()) ∧
    (∀ (env : Env) (q : String) (st : IterState),
      env.refineModel (refinementPrompt q st.steps) = .error () →
      runRound env q st = .error ()) ∧
    (∀ (env : Env) (q : String) (ts : List AgentTraceStep) (ctx : String),
      env.finalModel (finalPrompt q (essentialSteps ts) ctx) = .error () →
      generateFinalOutput env q ts ctx = .error ()) ∧
    (∀ (env : Env) (q : String) (st : IterState) (rq : String),
      generateRefinedQuery env q st.steps = .ok rq →
      env.search rq = .error () →
      ∃ r, runRound env q st = .ok r) ∧
    (∀ (env : Env) (q : String) (st : IterState) (rq : String)
        (rs : List SearchResult),
      generateRefinedQuery env q st.steps = .ok rq →
      env.search rq = .ok rs →
      env.analyzeModel (analysisPrompt rq rs (rs.all fun r => isMockLink r.link)) = .error () →
      ∃ r, runRound env q st = .ok r) := by
  refine ⟨?_, ?_, ?_, ?_, ?_⟩
  · intro env q res ctx hk hplan
    simp [generateResearchResponse, initOpenAI, generatePlanningStep, hk, hplan]
  · intro env q st href
    simp [runRound, generateRefinedQuery, href]
  · intro env q ts ctx hfin
    simp [generateFinalOutput, hfin]
  · intro env q st rq hrq hs
    simp only [runRound, hrq, tryRoundBody, hs]
    repeat' split
    all_goals exact ⟨_, rfl⟩
  · intro env q st rq rs hrq hs hana
    have hanaStep : ∀ ts, analyzeSearchResults env rq rs ts = .error () := by
      intro ts
      unfold analyzeSearchResults
      rw [hana]
    simp only [runRound, hrq, tryRoundBody, hs]
    by_cases hmock : (rs.all fun r => isMockLink r.link) = true
    · simp only [hmock, if_true]
      by_cases hcap : st.fails + 1 ≥ 2
      · simp only [hcap, if_true]
        exact ⟨_, rfl⟩
      · simp only [hcap, if_false, analysisPart, hanaStep]
        repeat' split
        all_goals exact ⟨_, rfl⟩
    · simp only [hmock, if_false, analysisPart, hanaStep]
      repeat' split
      all_goals exact ⟨_, rfl⟩

theorem c5_witness : generateResearchResponse envPlanFail "q" [] "" = .error () :=
  c5_amended_model_failure_policy.1 envPlanFail "q" [] "" rfl rfl

/-! ## Claim C4 -/

/-- The planning step of the unreachable-provider scenario. -/
def planStep4 : AgentTraceStep :=
  { thought := "I need to plan how to approach this research question."
  , action := "Initial planning for query: \"best electric cars 2024\""
  , observation := "Received initial search results and created a research plan."
  , reflection := some "Plan: look for EV reviews." }

/-- The first-round search step: placeholder results, one failure so far. -/
def searchStep4 : AgentTraceStep :=
  { thought := "I need to search for more specific information about this topic."
  , action := "Searching for: \"best electric cars 2024 reviews\""
  , observation := "Search returned no real results (using generated placeholders instead)."
  , reflection := none }

/-- The first-round analysis step over the placeholder batch. -/
def analysisStep4 : AgentTraceStep :=
  { thought := "I need to evaluate if these search results are helpful for my research."
  , action := "Analyzing results from query: \"best electric cars 2024 reviews\""
  , observation := "Analyzed 5 placeholder results (no actual search results were found)."
  , reflection := some "The placeholder results are not informative." }

/-- The second-round search step, on which the failure cap is hit. -/
def searchStep4Final : AgentTraceStep :=
  { thought := "I need to search for more specific information about this topic."
  , action := "Searching for: \"best electric cars 2024 reviews\""
  , observation := "Search returned no real results (using generated placeholders instead). After multiple search failures, proceeding with available information."
  , reflection := none }

/-- **C4 counterexample**: in the unreachable-provider scenario, after the
first refinement round the consecutive-failure count is 1, not 2 — the
initial (synthetic) search results do not contribute to the counter, which
starts at 0 inside the loop. -/
theorem c4_counterexample :
    runRound env4 "best electric cars 2024"
        { steps := [planStep4], fails := 0, rounds := 0 } =
      .ok ({ steps := [planStep4, searchStep4, analysisStep4]
           , fails := 1, rounds := 1 }, false) ∧
    (1 : Nat) ≠ 2 :=
  ⟨by rfl, by decide⟩

/-- **C4 amended**: with query "best electric cars 2024" and the provider
unreachable on every call, the loop runs on synthetic results only; the
consecutive-failure count reaches 2 after the *second* refinement round
(it is 1 after the first), the loop halts there with the
proceed-with-available-information note, and a final output is still
produced. -/
theorem c4_amended_scenario :
    performIterativeResearch env4 "best electric cars 2024"
        "Plan: look for EV reviews." [planStep4] 2 =
      .ok { steps := [planStep4, searchStep4, analysisStep4, searchStep4Final]
          , fails := 2, rounds := 2 } ∧
    generateResearchResponse env4 "best electric cars 2024"
        (generateMockResults "best electric cars 2024") "" =
      .ok { traceSteps := [planStep4, searchStep4, analysisStep4, searchStep4Final]
          , finalOutput := "Based on limited information, here is an answer." } ∧
    searchStep4Final.observation = mockObs ++ failNote :=
  ⟨by rfl, by rfl, by rfl⟩

/-! ## Claim C6 -/

/-- **C6**: the synthesis prompt is built from the first trace step plus the
at most 2 most recent analysis steps with truthy reflection, and nothing
else: two traces agreeing on those pieces produce the same synthesis
behaviour; the reduced subset has at most 3 steps; its non-head part is a
suffix of the analysis-step filtering (hence the most recent ones), every
element of which passes the analysis filter. -/
theorem c6_synthesis_reduced_subset (env : Env) (q ctx : String)
    (ts ts' : List AgentTraceStep)
    (h1 : ts.take 1 = ts'.take 1)
    (h2 : lastTwo (ts.filter analysisKeep) = lastTwo (ts'.filter analysisKeep)) :
    generateFinalOutput env q ts ctx = generateFinalOutput env q ts' ctx ∧
    (essentialSteps ts).length ≤ 3 ∧
    (∃ pre, ts.filter analysisKeep = pre ++ lastTwo (ts.filter analysisKeep)) ∧
    (lastTwo (ts.filter analysisKeep)).length ≤ 2 ∧
    ∀ s ∈ lastTwo (ts.filter analysisKeep), analysisKeep s = true := by
  have hess : essentialSteps ts = essentialSteps ts' := by
    unfold essentialSteps
    rw [h1, h2]
  refine ⟨?_, ?_, ?_, ?_, ?_⟩
  · unfold generateFinalOutput
    rw [hess]
  · unfold essentialSteps lastTwo
    simp only [List.length_append, List.length_take, List.length_drop]
    omega
  · exact ⟨(ts.filter analysisKeep).take ((ts.filter analysisKeep).length - 2),
      (List.take_append_drop _ _).symm⟩
  · unfold lastTwo
    simp only [List.length_drop]
    omega
  · intro s hs
    unfold lastTwo at hs
    exact List.of_mem_filter (List.mem_of_mem_drop hs)

def pStep6 : AgentTraceStep :=
  { thought := "t", action := "plan", observation := "o", reflection := some "p" }

def a1Step6 : AgentTraceStep :=
  { thought := "t", action := "Analyzing results from query: \"x\""
  , observation := "o", reflection := some "r1" }

def a2Step6 : AgentTraceStep :=
  { thought := "t", action := "Analyzing results from query: \"x\""
  , observation := "o", reflection := some "r2" }

def a3Step6 : AgentTraceStep :=
  { thought := "t", action := "Analyzing results from query: \"x\""
  , observation := "o", reflection := some "r3" }

def xStep6 : AgentTraceStep :=
  { thought := "t", action := "Searching for: \"x\"", observation := "o"
  , reflection := none }

theorem c6_witness :
    generateFinalOutput envW "q" [pStep6, a1Step6, a2Step6, a3Step6, xStep6] "" =
      generateFinalOutput envW "q" [pStep6, a2Step6, a3Step6] "" :=
  (c6_synthesis_reduced_subset envW "q" "" [pStep6, a1Step6, a2Step6, a3Step6, xStep6]
    [pStep6, a2Step6, a3Step6] (by decide) (by decide)).1

theorem c3_witness :
    st13.fails ≠ 0 ↔ roundFailureCause env3 "solar panel efficiency 2024" :=
  (c3_amended_failure_accounting env3 "q" { steps := [], fails := 0, rounds := 0 }
    "solar panel efficiency 2024" st13 false (by rfl) (by rfl)).1
